import Mathlib

/-!
Verification of the RPG MCP hybrid server (`main_mcp.py`).

The file shallowly embeds the parts of the program the claims are about:
the map scanner (`detect_map_coordinates`), the movement tool
(`move_player`), the player-status endpoints, the JavaScript command
queue drain (`get_js_commands`) and the Gemini generation tool
(`generate_gemini_content`).  Python dicts are modelled as association
lists whose insert operation preserves insertion order and overwrites in
place, matching CPython dict semantics.  JSON values are modelled by the
inductive `Json`.  Network and event-loop effects are modelled as
explicit outcome parameters.  Definitions come first, then the lemmas
and theorems.
-/

set_option maxRecDepth 8192

namespace RpgMcp

/-- A JSON value, as produced by Python's `json` module (numbers are
modelled as integers; the claims never exercise fractional numbers). -/
inductive Json where
  | null
  | bool (b : Bool)
  | num (n : Int)
  | str (s : String)
  | arr (elems : List Json)
  | obj (fields : List (String × Json))

/-- Lookup in a Python dict modelled as an association list (`d[k]` /
`k in d`). -/
def dictLookup {α : Type} : List (String × α) → String → Option α
  | [], _ => none
  | (k₀, v) :: rest, k => if k₀ = k then some v else dictLookup rest k

/-- Assignment `d[k] = v` on a Python dict: if the key is present its
value is replaced in place (the key keeps its insertion position),
otherwise the pair is appended at the end. -/
def dictInsert {α : Type} (k : String) (v : α) : List (String × α) → List (String × α)
  | [] => [(k, v)]
  | (k₀, v₀) :: rest => if k₀ = k then (k, v) :: rest else (k₀, v₀) :: dictInsert k v rest

/-- A grid coordinate: `x` is the column index, `y` the row index. -/
structure Coord where
  x : Nat
  y : Nat
deriving DecidableEq, Repr

/-- The hardcoded `map_layout` of `detect_map_coordinates`. -/
def map_layout : List String :=
  [ "####################",
    "#P   1   W   2     #",
    "#                  #",
    "#    B   h   M   C #",
    "#                  #",
    "# 3   4       5    #",
    "#                  #",
    "#                  #",
    "# 5           6    #",
    "####################" ]

/-- The body of the scanner's inner loop: the `if tile == 'h' / elif ...`
chain of `detect_map_coordinates`, executed at column `xtile.1` of row
`y` on the accumulated dict. -/
def scanStep (y : Nat) (destinations : List (String × Coord)) (xtile : Nat × Char) :
    List (String × Coord) :=
  if xtile.2 = 'h' then dictInsert "casa" ⟨xtile.1, y⟩ destinations
  else if xtile.2 = 'W' then dictInsert "trabalho" ⟨xtile.1, y⟩ destinations
  else if xtile.2 = 'M' then dictInsert "mercado" ⟨xtile.1, y⟩ destinations
  else if xtile.2 = 'B' then dictInsert "banco" ⟨xtile.1, y⟩ destinations
  else if xtile.2 = 'C' then dictInsert "loja_carros" ⟨xtile.1, y⟩ destinations
  else destinations

/-- The two nested `enumerate` loops of `detect_map_coordinates`,
parametrised by the grid being scanned. -/
def scan_layout (layout : List String) : List (String × Coord) :=
  layout.enum.foldl
    (fun destinations yrow => yrow.2.data.enum.foldl (scanStep yrow.1) destinations) []

/-- `detect_map_coordinates`: scans the hardcoded `map_layout`. -/
def detect_map_coordinates : List (String × Coord) := scan_layout map_layout

/-- Result of the `get_destinations` tool (its JSON payload). -/
structure DestinationsResult where
  destinations : List (String × Coord)
  message : String

/-- The `get_destinations` tool. -/
def get_destinations : DestinationsResult :=
  { destinations := detect_map_coordinates,
    message := "Coordenadas detectadas automaticamente do mapa" }

/-- Specification-side view of the scan: the recognized-marker table of
the `if/elif` chain as a partial map from tile character to destination
name. -/
def markerName (tile : Char) : Option String :=
  if tile = 'h' then some "casa"
  else if tile = 'W' then some "trabalho"
  else if tile = 'M' then some "mercado"
  else if tile = 'B' then some "banco"
  else if tile = 'C' then some "loja_carros"
  else none

/-- Specification-side view: all marker occurrences of a grid as
(name, coordinate) pairs, in row-major top-to-bottom, left-to-right
order. -/
def markerOccurrences (layout : List String) : List (String × Coord) :=
  layout.enum.flatMap fun yrow =>
    yrow.2.data.enum.filterMap fun xtile =>
      (markerName xtile.2).map fun n => (n, Coord.mk xtile.1 yrow.1)

/-- The value attached to key `k` by the latest pair for `k` in `pairs`
(the pair closest to the end of the list), if any. -/
def lastVal {α : Type} (pairs : List (String × α)) (k : String) : Option α :=
  match pairs with
  | [] => none
  | p :: rest =>
    match lastVal rest k with
    | some v => some v
    | none => if p.1 = k then some p.2 else none

/-- Python `str.lower()`.  `Char.toLower` lowers exactly the ASCII
range; every string the program compares is ASCII, where the two
functions agree. -/
def str_lower (s : String) : String := String.mk (s.data.map Char.toLower)

/-- Outcome of the fire-and-forget notification `move_player` sends to
`POST /api/execute-js` on the presentation surface. -/
inductive NotifyOutcome where
  | delivered
  | connectionError
  | raised (msg : String)

/-- Scripts that actually reach the frontend queue: the inner
`except: pass` swallows connection errors, the outer
`except Exception as js_error: pass` swallows everything else. -/
def notifyDelivered (notify : NotifyOutcome) (script : String) : List String :=
  match notify with
  | .delivered => [script]
  | .connectionError => []
  | .raised _ => []

/-- The `player_status` sub-object of `move_player`'s success payload. -/
structure MovePlayerStatus where
  destination : String
  target_coordinates : Coord
  movement_type : String
  status : String
deriving DecidableEq

/-- The JSON payload returned by `move_player`. -/
inductive MoveResult where
  | success (message : String) (new_position : Coord) (frontend_triggered : Bool)
      (player_status : MovePlayerStatus)
  | failure (message : String)
deriving DecidableEq

/-- `move_player`: looks the lowercased destination up in the scanner's
dict; on a miss returns the failure payload listing the dict's keys; on
a hit fires the best-effort notification (whose outcome is the `notify`
parameter) and returns the success payload.  The second component is
the list of scripts that reached the frontend queue. -/
def move_player (destination : String) (notify : NotifyOutcome) :
    MoveResult × List String :=
  let destinations := detect_map_coordinates
  let destination_lower := str_lower destination
  match dictLookup destinations destination_lower with
  | none =>
      (.failure ("Destino \x27" ++ destination
          ++ "\x27 não encontrado. Destinos disponíveis: "
          ++ String.intercalate ", " (destinations.map Prod.fst)), [])
  | some target_position =>
      (.success ("Executando movimento para " ++ destination_lower ++ "...")
          target_position true
          ⟨destination_lower, target_position, "pathfinding", "moving"⟩,
        notifyDelivered notify ("window.mcpMovePlayer(\"" ++ destination_lower ++ "\")"))

/-- An entry of `js_command_queue`: a script together with its enqueue
time (`time.time()`, in seconds). -/
structure QueuedCmd where
  script : String
  timestamp : ℚ
deriving DecidableEq

/-- `GET /api/js-commands`: rebinds the queue to the entries strictly
younger than 30 seconds, copies that list as the response, and clears
the queue.  Returns (response, queue state after the call). -/
def get_js_commands (js_command_queue : List QueuedCmd) (current_time : ℚ) :
    List QueuedCmd × List QueuedCmd :=
  let filtered := js_command_queue.filter fun cmd => current_time - cmd.timestamp < 30
  (filtered, [])

/-- Reply body of `POST /api/player/update-status`. -/
structure UpdateReply where
  success : Bool
  message : String
deriving DecidableEq

/-- `POST /api/player/update-status`: overwrites `last_player_status`
with `request["player_status"]` when that key is present, otherwise
leaves it alone; always replies success.  Returns (new cached status,
reply body). -/
def update_player_status (request : List (String × Json)) (last_player_status : Json) :
    Json × UpdateReply :=
  (match dictLookup request "player_status" with
    | some p => p
    | none => last_player_status,
   ⟨true, "Status atualizado"⟩)

/-- `GET /api/player/current-status`: wraps the cached status. -/
def get_current_player_status (last_player_status : Json) : Json :=
  Json.obj [("player_status", last_player_status)]

/-- Outcome of the `requests.get` call of `get_player_status` to
`/api/get-player-status-live`. -/
inductive FetchOutcome where
  | response (status : Nat) (text : String)
  | exception (msg : String)

/-- The three payload shapes `get_player_status` can return: the live
body verbatim, the cached status, or the cached status with the
exception text attached under `"error"`. -/
inductive StatusResult where
  | live (text : String)
  | cached (player_status : Json)
  | cachedWithError (player_status : Json) (error : String)

/-- `get_player_status`: one `requests.get`; on a 200 response the body
is returned verbatim, on any other status the cached status is
returned, and on an exception the cached status is returned with the
exception text attached. -/
def get_player_status (last_player_status : Json) (fetch : FetchOutcome) : StatusResult :=
  match fetch with
  | .response status text =>
    if status = 200 then .live text else .cached last_player_status
  | .exception e => .cachedWithError last_player_status e

/-- Result payload of `generate_gemini_content`: either
`\x7b"response": ...\x7d` or `\x7b"error": msg, "status_code": n\x7d`. -/
inductive GeminiResult where
  | ok (response : Json)
  | err (msg : String) (status_code : Nat)

/-- The `except Exception` branch of `generate_gemini_content`: its
message is `"Erro interno: " ++ str(e)`; the Python exception text is
not modelled, only the fixed prefix and the 500 status. -/
def internal_error : GeminiResult := .err "Erro interno: " 500

/-- Outcome of the `requests.post` call to the Gemini API.  `body` is
the result of `response.json()` on the success path: `none` when the
body is not valid JSON, in which case `response.json()` raises a
`json.JSONDecodeError` subclass that is caught by the FIRST except
clause, yielding the "JSON inválido fornecido" 400 payload. -/
inductive NetOutcome where
  | timeout
  | requestError (msg : String)
  | response (status : Nat) (text : String) (body : Option Json)

/-- The subscript `...["text"]` of the extraction: a missing key is a
`KeyError`, which lands in `except Exception`. -/
def extract_text : Option Json → GeminiResult
  | some v => .ok v
  | none => internal_error

/-- The subscript `...["parts"][0]["text"]` applied to the first part:
subscripting a non-dict raises. -/
def extract_part0 (p0 : Json) : GeminiResult :=
  match p0 with
  | .obj pf => extract_text (dictLookup pf "text")
  | _ => internal_error

/-- The value of `...["content"]["parts"]`: anything but a nonempty
list makes `[0]` or the following subscript raise. -/
def extract_parts : Option Json → GeminiResult
  | some (.arr (p0 :: _)) => extract_part0 p0
  | _ => internal_error

/-- The value of `...["candidates"][0]["content"]`: a missing key or a
non-dict value makes the `["parts"]` subscript raise. -/
def extract_content : Option Json → GeminiResult
  | some (.obj contf) => extract_parts (dictLookup contf "parts")
  | _ => internal_error

/-- The first candidate `result["candidates"][0]`: subscripting a
non-dict with `["content"]` raises. -/
def extract_candidate0 (c0 : Json) : GeminiResult :=
  match c0 with
  | .obj cf => extract_content (dictLookup cf "content")
  | _ => internal_error

/-- The test `if "candidates" in result and len(result["candidates"]) > 0`
followed by the subscript chain: a false test yields the "Resposta
inválida" payload, `len` on a non-sized value raises. -/
def extract_candidates : Option Json → GeminiResult
  | some (.arr (c0 :: _)) => extract_candidate0 c0
  | some (.arr []) => .err "Resposta inválida da API Gemini" 500
  | some (.str s) =>
    if s = "" then .err "Resposta inválida da API Gemini" 500 else internal_error
  | some (.obj []) => .err "Resposta inválida da API Gemini" 500
  | some _ => internal_error
  | none => .err "Resposta inválida da API Gemini" 500

/-- The extraction step of `generate_gemini_content` on a decoded 2xx
body: `if "candidates" in result and len(result["candidates"]) > 0`
followed by `result["candidates"][0]["content"]["parts"][0]["text"]`.
Branches where a Python `len`, `in` or subscript raises land in
`except Exception` (modelled by `internal_error`); a false test yields
the "Resposta inválida" payload.  `"candidates" in x` on a list is a
membership test and on a string a substring test; on other non-dict
values it raises. -/
def extract_ai_response (result : Json) : GeminiResult :=
  match result with
  | .obj fields => extract_candidates (dictLookup fields "candidates")
  | .arr xs =>
    if xs.any fun j => match j with | .str s => s = "candidates" | _ => false
    then internal_error
    else .err "Resposta inválida da API Gemini" 500
  | .str s =>
    if (s.splitOn "candidates").length > 1
    then internal_error
    else .err "Resposta inválida da API Gemini" 500
  | _ => internal_error

/-- `generate_gemini_content`.  `api_key` is `os.getenv("GEMINI_API_KEY")`
(`if not api_key` is true for `None` and for the empty string);
`contents` is the result of `json.loads(contents_json)` (`none` models
a `json.JSONDecodeError`); `net` is the outcome of the upstream call,
consulted only once the key and the input JSON pass.  `response.ok`
is `status_code < 400`. -/
def generate_gemini_content (api_key : Option String) (contents : Option Json)
    (net : NetOutcome) : GeminiResult :=
  match api_key with
  | none => .err "GEMINI_API_KEY não configurada no arquivo .env" 500
  | some key =>
    if key = "" then .err "GEMINI_API_KEY não configurada no arquivo .env" 500
    else
      match contents with
      | none => .err "JSON inválido fornecido" 400
      | some _ =>
        match net with
        | .timeout => .err "Timeout na chamada da API Gemini" 408
        | .requestError m => .err ("Erro de conexão com a API Gemini: " ++ m) 500
        | .response status text body =>
          if status < 400 then
            match body with
            | none => .err "JSON inválido fornecido" 400
            | some result => extract_ai_response result
          else
            .err ("Erro na API Gemini: " ++ toString status ++ " - " ++ text) status

/-- Specification-side view of the success extraction: the path
`candidates[0].content.parts[0].text`, as an `Option`. -/
def Json.getField (j : Json) (k : String) : Option Json :=
  match j with
  | .obj fs => dictLookup fs k
  | _ => none

/-- A candidate's `content.parts[0].text` value, when it has the
expected shape. -/
def candidateText (c0 : Json) : Option Json :=
  ((c0.getField "content").bind fun cont => cont.getField "parts").bind fun parts =>
    match parts with
    | .arr (p0 :: _) => p0.getField "text"
    | _ => none

/-- The first candidate's first part's `"text"` value, when the
response has the expected shape. -/
def firstCandidateText (result : Json) : Option Json :=
  (result.getField "candidates").bind fun cands =>
    match cands with
    | .arr (c0 :: _) => candidateText c0
    | _ => none

/-! Lemmas and theorems. -/

/-- The scanner's dict on the fixed map, computed once and shared. -/
lemma detect_map_coordinates_eq :
    detect_map_coordinates =
      [ ("trabalho", ⟨9, 1⟩), ("banco", ⟨5, 3⟩), ("casa", ⟨9, 3⟩),
        ("mercado", ⟨13, 3⟩), ("loja_carros", ⟨17, 3⟩) ] := by
  decide

/-- C1: the map scanner, surfaced by `get_destinations`, returns exactly
one column/row pair per recognized marker of the fixed grid — casa at
(9,3), trabalho at (9,1), mercado at (13,3), banco at (5,3),
loja_carros at (17,3), x the column index and y the row index — and no
other keys. -/
theorem destinations_exact :
    get_destinations.destinations =
      [ ("trabalho", ⟨9, 1⟩), ("banco", ⟨5, 3⟩), ("casa", ⟨9, 3⟩),
        ("mercado", ⟨13, 3⟩), ("loja_carros", ⟨17, 3⟩) ] :=
  detect_map_coordinates_eq

/-- C2: a drain of `GET /api/js-commands` returns exactly the queue
entries enqueued strictly less than 30 seconds before the drain time
(so an entry older than 30 seconds is excluded and one enqueued 1
second earlier is included), and clears the queue, so a second drain
with no enqueue in between returns the empty list. -/
theorem js_commands_drain (q : List QueuedCmd) (t t' : ℚ) :
    (∀ c : QueuedCmd, c ∈ (get_js_commands q t).1 ↔ c ∈ q ∧ t - c.timestamp < 30) ∧
    (get_js_commands q t).2 = [] ∧
    (get_js_commands (get_js_commands q t).2 t').1 = [] := by
  refine ⟨fun c => ?_, rfl, rfl⟩
  simp [get_js_commands, List.mem_filter]

/-- C9: writing any payload through `POST /api/player/update-status`
and immediately reading `GET /api/player/current-status` returns
exactly the payload just written, whatever its shape: the update is a
wholesale overwrite with no merge and no validation. -/
theorem update_then_current (P cache : Json) :
    get_current_player_status (update_player_status [("player_status", P)] cache).1 =
      Json.obj [("player_status", P)] := by
  simp [update_player_status, get_current_player_status, dictLookup]

/-- C10: a `POST /api/player/update-status` body without the
`"player_status"` key leaves the cached status unchanged and still
replies success. -/
theorem update_status_missing_key (request : List (String × Json)) (cache : Json)
    (h : dictLookup request "player_status" = none) :
    (update_player_status request cache).1 = cache ∧
    (update_player_status request cache).2 = ⟨true, "Status atualizado"⟩ := by
  simp [update_player_status, h]

/-- Witness for `update_status_missing_key` at a concrete body. -/
theorem update_status_missing_key_witness :
    dictLookup [("other_key", Json.null)] "player_status" = none ∧
    ((update_player_status [("other_key", Json.null)] (Json.num 7)).1 = Json.num 7 ∧
      (update_player_status [("other_key", Json.null)] (Json.num 7)).2 =
        ⟨true, "Status atualizado"⟩) :=
  ⟨by simp [dictLookup], update_status_missing_key [("other_key", Json.null)] (Json.num 7)
    (by simp [dictLookup])⟩

/-- C4 counterexample: on a 404 from the live-status endpoint,
`get_player_status` returns the bare cached snapshot — the error
description is NOT attached, contradicting the claim that every
failure attaches it. -/
theorem player_status_404_no_error_attached :
    get_player_status (Json.obj []) (FetchOutcome.response 404 "Not Found") =
      StatusResult.cached (Json.obj []) ∧
    ¬ ∃ e, get_player_status (Json.obj []) (FetchOutcome.response 404 "Not Found") =
        StatusResult.cachedWithError (Json.obj []) e := by
  refine ⟨rfl, ?_⟩
  rintro ⟨e, h⟩
  rw [show get_player_status (Json.obj []) (FetchOutcome.response 404 "Not Found") =
      StatusResult.cached (Json.obj []) from rfl] at h
  exact StatusResult.noConfusion h

/-- C4 (amended): `get_player_status` returns the live body on a 200
response; on any non-200 response it returns the cached snapshot
without an error description; on a timeout or connection error (an
exception) it returns the cached snapshot with the exception text
attached. -/
theorem player_status_fallback (ps : Json) (s : Nat) (t e : String) :
    (s = 200 → get_player_status ps (FetchOutcome.response s t) = StatusResult.live t) ∧
    (s ≠ 200 → get_player_status ps (FetchOutcome.response s t) = StatusResult.cached ps) ∧
    get_player_status ps (FetchOutcome.exception e) = StatusResult.cachedWithError ps e := by
  refine ⟨fun h => ?_, fun h => ?_, rfl⟩ <;> simp [get_player_status, h]

/-- Witness for `player_status_fallback` at concrete fetch outcomes. -/
theorem player_status_fallback_witness :
    get_player_status Json.null (FetchOutcome.response 200 "corpo") =
      StatusResult.live "corpo" ∧
    get_player_status Json.null (FetchOutcome.response 500 "erro") =
      StatusResult.cached Json.null ∧
    get_player_status Json.null (FetchOutcome.exception "timed out") =
      StatusResult.cachedWithError Json.null "timed out" :=
  ⟨(player_status_fallback Json.null 200 "corpo" "timed out").1 rfl,
   (player_status_fallback Json.null 500 "erro" "timed out").2.1 (by decide),
   (player_status_fallback Json.null 500 "erro" "timed out").2.2⟩

/-- C5 counterexample: on a grid where the marker `h` occurs twice, the
scanner maps `casa` to the coordinates of the SECOND (last) occurrence,
not the first, so "first occurrence wins" is false. -/
theorem duplicate_marker_first_wins_counterexample :
    dictLookup (scan_layout ["hh"]) "casa" = some ⟨1, 0⟩ ∧
    dictLookup (scan_layout ["hh"]) "casa" ≠ some ⟨0, 0⟩ := by
  decide

/-- C3 counterexample: a non-success upstream status of 404 is echoed
verbatim as the payload's status code — the payload is not 500-class,
contradicting the claim's "non-success upstream HTTP status yields a
500-class error". -/
theorem gemini_upstream_echo_counterexample :
    generate_gemini_content (some "chave") (some (Json.obj []))
        (NetOutcome.response 404 "Not Found" (some Json.null)) =
      GeminiResult.err "Erro na API Gemini: 404 - Not Found" 404 ∧
    ¬ (500 ≤ 404) :=
  ⟨rfl, by decide⟩

/-- Lookup after a dict assignment: the assigned key reads back the new
value, every other key is untouched. -/
lemma dictLookup_dictInsert {α : Type} (k k' : String) (v : α) (d : List (String × α)) :
    dictLookup (dictInsert k v d) k' = if k = k' then some v else dictLookup d k' := by
  induction d with
  | nil => simp [dictInsert, dictLookup]
  | cons p rest ih =>
    obtain ⟨k₀, v₀⟩ := p
    by_cases h : k₀ = k
    · subst h
      by_cases hk : k₀ = k' <;> simp [dictInsert, dictLookup, hk]
    · by_cases h' : k₀ = k' <;> by_cases hk : k = k' <;>
        simp_all [dictInsert, dictLookup]

/-- Folding a pointwise-equal step function gives the same result. -/
lemma foldl_congr_fun {α β : Type} (f g : β → α → β) (xs : List α) (d : β)
    (h : ∀ b a, f b a = g b a) : xs.foldl f d = xs.foldl g d := by
  induction xs generalizing d with
  | nil => rfl
  | cons x xs ih => rw [List.foldl_cons, List.foldl_cons, h, ih]

/-- A fold over a flattened list is the nested fold. -/
lemma foldl_flatMap {α β γ : Type} (f : γ → β → γ) (g : α → List β) (xs : List α) (d : γ) :
    (xs.flatMap g).foldl f d = xs.foldl (fun acc x => (g x).foldl f acc) d := by
  induction xs generalizing d with
  | nil => rfl
  | cons x xs ih => simp [List.flatMap_cons, List.foldl_append, ih]

/-- A fold over a `filterMap` is the fold that skips the dropped
elements. -/
lemma foldl_filterMap {α β γ : Type} (f : γ → β → γ) (g : α → Option β) (xs : List α) (d : γ) :
    (xs.filterMap g).foldl f d =
      xs.foldl (fun acc x => (g x).elim acc fun y => f acc y) d := by
  induction xs generalizing d with
  | nil => rfl
  | cons x xs ih => cases hx : g x <;> simp [List.filterMap_cons, hx, ih]

/-- The inner-loop body is the dict assignment selected by the marker
table. -/
lemma scanStep_eq_markerName (row : Nat) (d : List (String × Coord)) (xt : Nat × Char) :
    scanStep row d xt =
      ((markerName xt.2).map fun n => (n, Coord.mk xt.1 row)).elim d
        fun y => dictInsert y.1 y.2 d := by
  unfold scanStep markerName
  split_ifs <;> rfl

/-- Lookup after folding dict assignments over a pair list: the latest
pair for the key wins, and absent keys fall through to the initial
dict. -/
lemma dictLookup_foldl_insert {α : Type} (pairs : List (String × α))
    (d : List (String × α)) (k : String) :
    dictLookup (pairs.foldl (fun acc p => dictInsert p.1 p.2 acc) d) k =
      match lastVal pairs k with
      | some v => some v
      | none => dictLookup d k := by
  induction pairs generalizing d with
  | nil => simp [lastVal]
  | cons p rest ih =>
    rw [List.foldl_cons, ih]
    cases hl : lastVal rest k with
    | some v => simp [lastVal, hl]
    | none =>
      by_cases hp : p.1 = k <;> simp [lastVal, hl, dictLookup_dictInsert, hp]

/-- The scanner is the fold of dict assignments over the row-major
marker occurrences. -/
lemma scan_layout_eq_fold (layout : List String) :
    scan_layout layout =
      (markerOccurrences layout).foldl (fun acc p => dictInsert p.1 p.2 acc) [] := by
  unfold scan_layout markerOccurrences
  rw [foldl_flatMap]
  refine foldl_congr_fun _ _ _ _ fun acc yrow => ?_
  rw [foldl_filterMap]
  exact foldl_congr_fun _ _ _ _ fun acc' xt => scanStep_eq_markerName yrow.1 acc' xt

/-- C5 (amended): on any grid, when a recognized marker occurs more
than once the scanner keeps the coordinates of the LAST occurrence in
row-major top-to-bottom, left-to-right order: looking a destination
name up in the scan result yields exactly the value carried by the
latest row-major marker occurrence for that name (and hence at most
one coordinate pair per name). -/
theorem duplicate_marker_last_wins (layout : List String) (name : String) :
    dictLookup (scan_layout layout) name = lastVal (markerOccurrences layout) name := by
  rw [scan_layout_eq_fold, dictLookup_foldl_insert]
  cases lastVal (markerOccurrences layout) name <;> simp [dictLookup]

/-- Every key of the scanner's dict is already lowercase, so a
destination string that looks up successfully after lowering is fixed
by a second lowering. -/
lemma detect_key_lower (k : String)
    (h : (dictLookup detect_map_coordinates k).isSome) : str_lower k = k := by
  rw [detect_map_coordinates_eq] at h
  simp only [dictLookup] at h
  split_ifs at h with h1 h2 h3 h4 h5
  · rw [← h1]; decide
  · rw [← h2]; decide
  · rw [← h3]; decide
  · rw [← h4]; decide
  · rw [← h5]; decide
  · simp at h

/-- C6: for a destination whose lowercased form is in the scanner's
dict, `move_player` returns success with `new_position` the scanner's
coordinates, for EVERY outcome of the fire-and-forget notification —
a notification failure never changes the returned payload. -/
theorem move_player_success (d : String) (c : Coord) (n : NotifyOutcome)
    (h : dictLookup detect_map_coordinates (str_lower d) = some c) :
    (move_player d n).1 =
      MoveResult.success ("Executando movimento para " ++ str_lower d ++ "...") c true
        ⟨str_lower d, c, "pathfinding", "moving"⟩ ∧
    ∀ n₂ : NotifyOutcome, (move_player d n).1 = (move_player d n₂).1 := by
  constructor
  · simp [move_player, h]
  · intro n₂
    simp [move_player, h]

/-- Witness for `move_player_success` at destination `"casa"` under a
failed notification. -/
theorem move_player_success_witness :
    dictLookup detect_map_coordinates (str_lower "casa") = some ⟨9, 3⟩ ∧
    ((move_player "casa" NotifyOutcome.connectionError).1 =
      MoveResult.success ("Executando movimento para " ++ str_lower "casa" ++ "...")
        ⟨9, 3⟩ true ⟨str_lower "casa", ⟨9, 3⟩, "pathfinding", "moving"⟩ ∧
    ∀ n₂ : NotifyOutcome,
      (move_player "casa" NotifyOutcome.connectionError).1 = (move_player "casa" n₂).1) :=
  ⟨by decide,
   move_player_success "casa" ⟨9, 3⟩ NotifyOutcome.connectionError (by decide)⟩

/-- C7: `move_player` is case-insensitive on recognized destinations:
when the lowercased destination is in the scanner's dict, the call on
the original string and the call on its lowercase form return the
same payload and deliver the same notification. -/
theorem move_player_case_insensitive (d : String) (n : NotifyOutcome)
    (h : (dictLookup detect_map_coordinates (str_lower d)).isSome) :
    move_player d n = move_player (str_lower d) n := by
  obtain ⟨c, hc⟩ := Option.isSome_iff_exists.mp h
  have hk : str_lower (str_lower d) = str_lower d := detect_key_lower _ h
  simp [move_player, hk, hc]

/-- Witness for `move_player_case_insensitive`: `move_player "CASA"`
equals `move_player "casa"`. -/
theorem move_player_case_insensitive_witness :
    (dictLookup detect_map_coordinates (str_lower "CASA")).isSome ∧
    move_player "CASA" NotifyOutcome.delivered =
      move_player (str_lower "CASA") NotifyOutcome.delivered :=
  ⟨by decide, move_player_case_insensitive "CASA" NotifyOutcome.delivered (by decide)⟩

/-- C8: for a destination whose lowercased form is not in the scanner's
dict, `move_player` returns success=false with a message listing every
valid destination name, and no notification reaches the frontend
queue. -/
theorem move_player_unknown (d : String) (n : NotifyOutcome)
    (h : dictLookup detect_map_coordinates (str_lower d) = none) :
    move_player d n =
      (MoveResult.failure ("Destino \x27" ++ d
          ++ "\x27 não encontrado. Destinos disponíveis: "
          ++ "trabalho, banco, casa, mercado, loja_carros"), []) := by
  have hkeys : String.intercalate ", " (detect_map_coordinates.map Prod.fst) =
      "trabalho, banco, casa, mercado, loja_carros" := by decide
  simp [move_player, h, hkeys]

/-- Witness for `move_player_unknown` at destination `"nonexistent"`. -/
theorem move_player_unknown_witness :
    dictLookup detect_map_coordinates (str_lower "nonexistent") = none ∧
    move_player "nonexistent" NotifyOutcome.delivered =
      (MoveResult.failure ("Destino \x27" ++ "nonexistent"
          ++ "\x27 não encontrado. Destinos disponíveis: "
          ++ "trabalho, banco, casa, mercado, loja_carros"), []) :=
  ⟨by decide, move_player_unknown "nonexistent" NotifyOutcome.delivered (by decide)⟩

/-- `extract_candidate0` succeeds with exactly the value reached by
`content.parts[0].text` inside the candidate, and otherwise lands in a
500-status error payload. -/
lemma extract_candidate0_spec (c0 : Json) :
    (∀ v, candidateText c0 = some v → extract_candidate0 c0 = .ok v) ∧
    (candidateText c0 = none → ∃ m, extract_candidate0 c0 = .err m 500) := by
  cases c0 with
  | null => simp [candidateText, Json.getField, extract_candidate0, internal_error]
  | bool b => simp [candidateText, Json.getField, extract_candidate0, internal_error]
  | num n => simp [candidateText, Json.getField, extract_candidate0, internal_error]
  | str s => simp [candidateText, Json.getField, extract_candidate0, internal_error]
  | arr a => simp [candidateText, Json.getField, extract_candidate0, internal_error]
  | obj cf =>
    cases hcont : dictLookup cf "content" with
    | none => simp [candidateText, Json.getField, extract_candidate0, extract_content,
        hcont, internal_error]
    | some cont =>
      cases cont with
      | null => simp [candidateText, Json.getField, extract_candidate0, extract_content,
          hcont, internal_error]
      | bool b => simp [candidateText, Json.getField, extract_candidate0, extract_content,
          hcont, internal_error]
      | num n => simp [candidateText, Json.getField, extract_candidate0, extract_content,
          hcont, internal_error]
      | str s => simp [candidateText, Json.getField, extract_candidate0, extract_content,
          hcont, internal_error]
      | arr a => simp [candidateText, Json.getField, extract_candidate0, extract_content,
          hcont, internal_error]
      | obj contf =>
        cases hparts : dictLookup contf "parts" with
        | none => simp [candidateText, Json.getField, extract_candidate0, extract_content,
            extract_parts, hcont, hparts, internal_error]
        | some parts =>
          cases parts with
          | null => simp [candidateText, Json.getField, extract_candidate0,
              extract_content, extract_parts, hcont, hparts, internal_error]
          | bool b => simp [candidateText, Json.getField, extract_candidate0,
              extract_content, extract_parts, hcont, hparts, internal_error]
          | num n => simp [candidateText, Json.getField, extract_candidate0,
              extract_content, extract_parts, hcont, hparts, internal_error]
          | str s => simp [candidateText, Json.getField, extract_candidate0,
              extract_content, extract_parts, hcont, hparts, internal_error]
          | obj o => simp [candidateText, Json.getField, extract_candidate0,
              extract_content, extract_parts, hcont, hparts, internal_error]
          | arr pelems =>
            cases pelems with
            | nil => simp [candidateText, Json.getField, extract_candidate0,
                extract_content, extract_parts, hcont, hparts, internal_error]
            | cons p0 prest =>
              cases p0 with
              | null => simp [candidateText, Json.getField, extract_candidate0,
                  extract_content, extract_parts, extract_part0, hcont, hparts,
                  internal_error]
              | bool b => simp [candidateText, Json.getField, extract_candidate0,
                  extract_content, extract_parts, extract_part0, hcont, hparts,
                  internal_error]
              | num n => simp [candidateText, Json.getField, extract_candidate0,
                  extract_content, extract_parts, extract_part0, hcont, hparts,
                  internal_error]
              | str s => simp [candidateText, Json.getField, extract_candidate0,
                  extract_content, extract_parts, extract_part0, hcont, hparts,
                  internal_error]
              | arr a => simp [candidateText, Json.getField, extract_candidate0,
                  extract_content, extract_parts, extract_part0, hcont, hparts,
                  internal_error]
              | obj pf =>
                cases htext : dictLookup pf "text" with
                | none => simp [candidateText, Json.getField, extract_candidate0,
                    extract_content, extract_parts, extract_part0, extract_text,
                    hcont, hparts, htext, internal_error]
                | some v => simp [candidateText, Json.getField, extract_candidate0,
                    extract_content, extract_parts, extract_part0, extract_text,
                    hcont, hparts, htext, internal_error]

/-- The extraction step succeeds with exactly the value reached by the
path `candidates[0].content.parts[0].text`, and produces an error
payload with status 500 whenever that path does not exist. -/
lemma extract_ai_response_spec (r : Json) :
    (∀ v, firstCandidateText r = some v → extract_ai_response r = .ok v) ∧
    (firstCandidateText r = none → ∃ m, extract_ai_response r = .err m 500) := by
  cases r with
  | null => exact ⟨fun v hv => by simp [firstCandidateText, Json.getField] at hv,
      fun _ => ⟨_, rfl⟩⟩
  | bool b => exact ⟨fun v hv => by simp [firstCandidateText, Json.getField] at hv,
      fun _ => ⟨_, rfl⟩⟩
  | num n => exact ⟨fun v hv => by simp [firstCandidateText, Json.getField] at hv,
      fun _ => ⟨_, rfl⟩⟩
  | str s =>
    refine ⟨fun v hv => by simp [firstCandidateText, Json.getField] at hv, fun _ => ?_⟩
    by_cases hs : (s.splitOn "candidates").length > 1 <;>
      simp [extract_ai_response, hs, internal_error]
  | arr xs =>
    refine ⟨fun v hv => by simp [firstCandidateText, Json.getField] at hv, fun _ => ?_⟩
    by_cases hx : xs.any fun j => match j with | .str s => s = "candidates" | _ => false <;>
      simp [extract_ai_response, hx, internal_error]
  | obj fields =>
    cases hc : dictLookup fields "candidates" with
    | none => simp [extract_ai_response, extract_candidates, firstCandidateText,
        Json.getField, hc]
    | some cands =>
      cases cands with
      | null => simp [extract_ai_response, extract_candidates, firstCandidateText,
          Json.getField, hc, internal_error]
      | bool b => simp [extract_ai_response, extract_candidates, firstCandidateText,
          Json.getField, hc, internal_error]
      | num n => simp [extract_ai_response, extract_candidates, firstCandidateText,
          Json.getField, hc, internal_error]
      | str s =>
        refine ⟨fun v hv => by simp [firstCandidateText, Json.getField, hc] at hv,
          fun _ => ?_⟩
        by_cases hs : s = "" <;>
          simp [extract_ai_response, extract_candidates, hc, hs, internal_error]
      | obj objf =>
        cases objf with
        | nil => simp [extract_ai_response, extract_candidates, firstCandidateText,
            Json.getField, hc]
        | cons q qs => simp [extract_ai_response, extract_candidates, firstCandidateText,
            Json.getField, hc, internal_error]
      | arr elems =>
        cases elems with
        | nil => simp [extract_ai_response, extract_candidates, firstCandidateText,
            Json.getField, hc]
        | cons c0 rest =>
          have hspec := extract_candidate0_spec c0
          constructor
          · intro v hv
            have hv' : candidateText c0 = some v := by
              simpa [firstCandidateText, Json.getField, hc] using hv
            simpa [extract_ai_response, extract_candidates, hc] using hspec.1 v hv'
          · intro hv
            have hv' : candidateText c0 = none := by
              simpa [firstCandidateText, Json.getField, hc] using hv
            obtain ⟨m, hm⟩ := hspec.2 hv'
            exact ⟨m, by simpa [extract_ai_response, extract_candidates, hc] using hm⟩

/-- C3 (amended): `generate_gemini_content` maps outcomes as follows —
a missing or empty credential yields the configuration-error payload
no matter what the network would do (no network call); malformed input
JSON yields status 400; a timeout yields status 408; a transport
failure yields status 500 with the failure text; a non-success
upstream HTTP status is echoed in the error message together with the
body, and the payload status code equals the upstream status (it is
500-class only when that status is); a 2xx body that is not valid JSON
raises a `json.JSONDecodeError` subclass caught by the first except
clause, yielding the 400 payload; on success with the expected shape
the first candidate's first text part is returned, and any unexpected
JSON shape yields an error with status 500. -/
theorem gemini_outcome_mapping (key : String) (hk : key ≠ "") :
    (∀ (c : Option Json) (n : NetOutcome),
        generate_gemini_content none c n =
          .err "GEMINI_API_KEY não configurada no arquivo .env" 500) ∧
    (∀ (c : Option Json) (n : NetOutcome),
        generate_gemini_content (some "") c n =
          .err "GEMINI_API_KEY não configurada no arquivo .env" 500) ∧
    (∀ n, generate_gemini_content (some key) none n = .err "JSON inválido fornecido" 400) ∧
    (∀ c, generate_gemini_content (some key) (some c) NetOutcome.timeout =
        .err "Timeout na chamada da API Gemini" 408) ∧
    (∀ c m, generate_gemini_content (some key) (some c) (NetOutcome.requestError m) =
        .err ("Erro de conexão com a API Gemini: " ++ m) 500) ∧
    (∀ c s t b, 400 ≤ s →
        generate_gemini_content (some key) (some c) (NetOutcome.response s t b) =
          .err ("Erro na API Gemini: " ++ toString s ++ " - " ++ t) s) ∧
    (∀ c s t r v, s < 400 → firstCandidateText r = some v →
        generate_gemini_content (some key) (some c) (NetOutcome.response s t (some r)) =
          GeminiResult.ok v) ∧
    (∀ c s t r, s < 400 → firstCandidateText r = none →
        ∃ m, generate_gemini_content (some key) (some c)
            (NetOutcome.response s t (some r)) = .err m 500) ∧
    (∀ c s t, s < 400 →
        generate_gemini_content (some key) (some c) (NetOutcome.response s t none) =
          .err "JSON inválido fornecido" 400) := by
  refine ⟨fun c n => rfl, fun c n => rfl, fun n => ?_, fun c => ?_, fun c m => ?_,
    fun c s t b hs => ?_, fun c s t r v hs hv => ?_, fun c s t r hs hr => ?_,
    fun c s t hs => ?_⟩
  · simp [generate_gemini_content, hk]
  · simp [generate_gemini_content, hk]
  · simp [generate_gemini_content, hk]
  · simp [generate_gemini_content, hk, Nat.not_lt.mpr hs]
  · have h := (extract_ai_response_spec r).1 v hv
    simp [generate_gemini_content, hk, hs, h]
  · obtain ⟨m, hm⟩ := (extract_ai_response_spec r).2 hr
    exact ⟨m, by simp [generate_gemini_content, hk, hs, hm]⟩
  · simp [generate_gemini_content, hk, hs, internal_error]

/-- Witness for `gemini_outcome_mapping` at the key `"chave"` and
concrete outcomes. -/
theorem gemini_outcome_mapping_witness :
    ¬("chave" = "") ∧
    generate_gemini_content (some "chave") none NetOutcome.timeout =
      .err "JSON inválido fornecido" 400 ∧
    generate_gemini_content (some "chave") (some Json.null) NetOutcome.timeout =
      .err "Timeout na chamada da API Gemini" 408 :=
  ⟨by decide,
   (gemini_outcome_mapping "chave" (by decide)).2.2.1 NetOutcome.timeout,
   (gemini_outcome_mapping "chave" (by decide)).2.2.2.1 Json.null⟩

end RpgMcp
